import Mathlib

/-!
# ssl-handshake-check

A shallow embedding of `pkg/sslutil/sslUtil.go` and of the command package
`cmd/ssl-handshake-check` (`checkConfig.go`, `checker.go`, `reporter.go`).

The program talks to the operating system, the network, the Go standard
library and the Kuberhealthy check client.  Every answer those collaborators
give is a field of `World`; every call the program makes to them is recorded as
an `Event`.  A Go function `f` becomes a Lean function returning the value `f`
returns together with the list of calls it made, in order.  Go `error` values
are represented by their `Error()` text, `nil` by `none` (or by `Except.ok`).
Log output is not modelled.
-/

namespace SSLHandshakeCheck

/-! ## Standard-library data the program handles -/

/-- Contents of a file, as a sequence of byte values. -/
abbrev Bytes := List Nat

/-- One parsed X.509 certificate, identified by its encoding. -/
abbrev Certificate := List Nat

/-- The type `x509.CertPool`: the certificates held, in insertion order. -/
structure CertPool where
  certs : List Certificate
deriving DecidableEq, Repr

/-- The call `x509.NewCertPool()`: an empty pool. -/
def NewCertPool : CertPool := ⟨[]⟩

/-- The method `(*CertPool).AddCert`: a certificate already held is not added twice. -/
def CertPool.AddCert (s : CertPool) (cert : Certificate) : CertPool :=
  if cert ∈ s.certs then s else ⟨s.certs ++ [cert]⟩

/-- The method `(*CertPool).AppendCertsFromPEM`: every certificate that `decode`
finds in `pemCerts` is added; the flag reports whether any certificate was
parsed.  The pool is passed by pointer in Go, so the updated pool is returned. -/
def CertPool.AppendCertsFromPEM (decode : Bytes → List Certificate) (s : CertPool)
    (pemCerts : Bytes) : CertPool × Bool :=
  ((decode pemCerts).foldl CertPool.AddCert s, !(decode pemCerts).isEmpty)

/-- The constant `tls.VersionTLS12`. -/
def VersionTLS12 : Nat := 0x0303

/-- The fields of `tls.Config` that the program sets. -/
structure TLSConfig where
  InsecureSkipVerify : Bool
  MinVersion : Nat
  RootCAs : CertPool
deriving DecidableEq, Repr

/-- A `*url.URL` as the program observes it: the `Scheme` field and the results
of the methods `Hostname()`, `Port()` and `String()`. -/
structure URL where
  Scheme : String
  Hostname : String
  Port : String
  String : String
deriving DecidableEq, Repr

/-- An established `*tls.Conn`: what its `Handshake()` method returns. -/
structure Conn where
  Handshake : Option String
deriving DecidableEq, Repr

/-- A `time.Duration`, in nanoseconds. -/
abbrev Duration := Int

/-- A `time.Time`, in nanoseconds since the Unix epoch. -/
abbrev Time := Int

/-- The constant `time.Second`. -/
def Second : Duration := 1000000000

/-- The smallest `time.Duration` (an int64). -/
def minDuration : Duration := -(2 ^ 63)

/-- The largest `time.Duration` (an int64). -/
def maxDuration : Duration := 2 ^ 63 - 1

/-- The method `Time.Add`. -/
def Time.Add (t : Time) (d : Duration) : Time := t + d

/-- The method `Time.Sub`: the difference, saturated to the range of `Duration`. -/
def Time.Sub (t u : Time) : Duration :=
  if t - u < minDuration then minDuration
  else if maxDuration < t - u then maxDuration
  else t - u

/-- The zero value `time.Time{}`: January 1, year 1, 00:00:00 UTC. -/
def zeroTime : Time := -62135596800 * Second

/-! ## Calls to the outside and their answers -/

/-- A call the program makes to a collaborator. -/
inductive Event
  | stat (path : String)
  | readFile (path : String)
  | systemCertPool
  | dial (network : String) (address : String) (timeout : Duration) (config : TLSConfig)
  | handshake
  | close
  | cancel
  | reportSuccess
  | reportFailure (reasons : List String)
deriving DecidableEq, Repr

/-- The answers of the collaborators during one run. -/
structure World where
  /-- Whether `os.Stat` on the path returns a nil error. -/
  stat : String → Bool
  /-- The result of `os.ReadFile`. -/
  readFile : String → Except String Bytes
  /-- The result of `x509.SystemCertPool()`. -/
  systemCertPool : Except String CertPool
  /-- The certificates the PEM decoder of crypto/x509 finds in a byte sequence. -/
  decodePEM : Bytes → List Certificate
  /-- The result of `url.Parse`. -/
  urlParse : String → Except String URL
  /-- The result of `tls.DialWithDialer` for a network, address, dial timeout and configuration. -/
  dial : String → String → Duration → TLSConfig → Except String Conn
  /-- The result of `os.Getenv`: the empty string for an unset variable. -/
  getenv : String → String
  /-- The result of `strconv.ParseBool`. -/
  parseBool : String → Except String Bool
  /-- The result of `time.Now()`. -/
  now : Time
  /-- The two results of `checkclient.GetDeadline()`. -/
  getDeadline : Time × Option String
  /-- The error returned by `checkclient.ReportSuccess()`. -/
  checkclientReportSuccess : Option String
  /-- The error returned by `checkclient.ReportFailure(reasons)`. -/
  checkclientReportFailure : List String → Option String

/-! ## pkg/sslutil/sslUtil.go -/

/-- The constant `TimeoutSeconds`: the timeout for TLS connections. -/
def TimeoutSeconds : Int := 10

/-- The constant `kubernetesCAFileLocation`. -/
def kubernetesCAFileLocation : String := "/var/run/secrets/kubernetes.io/serviceaccount/ca.crt"

/-- The constant `selfSignedCertLocation`. -/
def selfSignedCertLocation : String := "/etc/ssl/selfsign/certificate.crt"

/-- The function `filePresent`: true if `os.Stat` reports no error. -/
def filePresent (w : World) (filePath : String) : Bool × List Event :=
  if w.stat filePath then (true, [Event.stat filePath]) else (false, [Event.stat filePath])

/-- The function `KubernetesCAPresent`. -/
def KubernetesCAPresent (w : World) : Bool × List Event :=
  filePresent w kubernetesCAFileLocation

/-- The function `SelfSignedCAPresent`. -/
def SelfSignedCAPresent (w : World) : Bool × List Event :=
  filePresent w selfSignedCertLocation

/-- The function `certPoolFromFile`: a fresh pool from the certificates of one file. -/
def certPoolFromFile (w : World) (filePath : String) : Except String CertPool × List Event :=
  match w.readFile filePath with
  | .error err => (.error err, [Event.readFile filePath])
  | .ok certBytes =>
    match CertPool.AppendCertsFromPEM w.decodePEM NewCertPool certBytes with
    | (certPool, ok) =>
      if !ok then
        (.error ("error parsing certs from file " ++ filePath), [Event.readFile filePath])
      else
        (.ok certPool, [Event.readFile filePath])

/-- The function `fetchKubernetesSelfSignedCertFromDisk`. -/
def fetchKubernetesSelfSignedCertFromDisk (w : World) : Except String Bytes × List Event :=
  match w.readFile kubernetesCAFileLocation with
  | .error err =>
    (.error ("error reading kubernetes certificate authority file: " ++ err),
      [Event.readFile kubernetesCAFileLocation])
  | .ok certs => (.ok certs, [Event.readFile kubernetesCAFileLocation])

/-- The function `fetchSelfSignedCertFromDisk`. -/
def fetchSelfSignedCertFromDisk (w : World) : Except String Bytes × List Event :=
  match w.readFile selfSignedCertLocation with
  | .error err =>
    (.error ("error reading custom certificate file: " ++ err),
      [Event.readFile selfSignedCertLocation])
  | .ok certs => (.ok certs, [Event.readFile selfSignedCertLocation])

/-- The function `AppendKubernetesCertsToPool`.  Returns the error (or `none`
for nil) and the pool as the call leaves it. -/
def AppendKubernetesCertsToPool (w : World) (pool : CertPool) :
    (Option String × CertPool) × List Event :=
  match fetchKubernetesSelfSignedCertFromDisk w with
  | (.error err, t) => ((some ("error fetching cert data from disk: " ++ err), pool), t)
  | (.ok certData, t) =>
    match CertPool.AppendCertsFromPEM w.decodePEM pool certData with
    | (pool1, _ok) => ((none, pool1), t)

/-- The function `CreatePool`. -/
def CreatePool (w : World) : Except String CertPool × List Event :=
  match SelfSignedCAPresent w with
  | (true, t0) =>
    match certPoolFromFile w selfSignedCertLocation with
    | (r, t1) => (r, t0 ++ t1)
  | (false, t0) =>
    match w.systemCertPool with
    | .error err => (.error err, t0 ++ [Event.systemCertPool])
    | .ok defaultPool =>
      match AppendKubernetesCertsToPool w defaultPool with
      | ((some err, _), t1) => (.error err, t0 ++ [Event.systemCertPool] ++ t1)
      | ((none, defaultPool1), t1) => (.ok defaultPool1, t0 ++ [Event.systemCertPool] ++ t1)

/-- The function `SSLHandshakeWithCertPool`. -/
def SSLHandshakeWithCertPool (w : World) (siteURL : URL) (certPool : CertPool) :
    Option String × List Event :=
  if siteURL.Scheme ≠ "https" then
    (some ("error doing SSL handshake. The url specified " ++ siteURL.String ++
      " was not an https URL"), [])
  else
    let timeout : Duration := TimeoutSeconds * Second
    let address := siteURL.Hostname ++ ":" ++ siteURL.Port
    let config : TLSConfig := ⟨false, VersionTLS12, certPool⟩
    match w.dial "tcp" address timeout config with
    | .error err =>
      (some ("error making connection to perform TLS handshake: " ++ err),
        [Event.dial "tcp" address timeout config])
    | .ok conn =>
      match conn.Handshake with
      | some err =>
        (some ("unable to perform TLS handshake: " ++ err),
          [Event.dial "tcp" address timeout config, Event.handshake, Event.close])
      | none =>
        (none, [Event.dial "tcp" address timeout config, Event.handshake, Event.close])

/-- The function `SSLHandshake`. -/
def SSLHandshake (w : World) (siteURL : URL) : Option String × List Event :=
  match w.systemCertPool with
  | .error err => (some err, [Event.systemCertPool])
  | .ok certPool =>
    match SSLHandshakeWithCertPool w siteURL certPool with
    | (r, t) => (r, Event.systemCertPool :: t)

/-- The function `FetchSelfSignedCertFromDisk`. -/
def FetchSelfSignedCertFromDisk (w : World) : Except String Bytes × List Event :=
  fetchSelfSignedCertFromDisk w

/-! ## cmd/ssl-handshake-check/checkConfig.go -/

/-- The constant `defaultCheckTimeout`: the fallback timeout for the check. -/
def defaultCheckTimeout : Duration := 20 * Second

/-- The type `CheckConfig`. -/
structure CheckConfig where
  DomainName : String
  Port : String
  SelfSigned : Bool
  CheckTimeout : Duration
deriving DecidableEq, Repr

/-- The function `parseConfig`. -/
def parseConfig (w : World) : Except String CheckConfig :=
  let checkTimeout : Duration := defaultCheckTimeout
  match w.getDeadline with
  | (deadline, _err) =>
    let checkTimeout : Duration := Time.Sub deadline (Time.Add w.now (Second * 5))
    let domainName := w.getenv "DOMAIN_NAME"
    if domainName.length = 0 then
      .error "DOMAIN_NAME environment variable has not been set"
    else
      let portNum := w.getenv "PORT"
      if portNum.length = 0 then
        .error "PORT environment variable has not been set"
      else
        let selfSignedEnv := w.getenv "SELF_SIGNED"
        if selfSignedEnv.length = 0 then
          .error "SELF_SIGNED environment variable has not been set"
        else
          match w.parseBool selfSignedEnv with
          | .error err => .error ("failed to parse SELF_SIGNED: " ++ err)
          | .ok selfSignedBool => .ok ⟨domainName, portNum, selfSignedBool, checkTimeout⟩

/-! ## cmd/ssl-handshake-check/reporter.go -/

/-- The function `reportSuccess`. -/
def reportSuccess (w : World) : Option String × List Event :=
  match w.checkclientReportSuccess with
  | some err => (some err, [Event.reportSuccess])
  | none => (none, [Event.reportSuccess])

/-- The function `reportFailure`. -/
def reportFailure (w : World) (errorMessage : String) : Option String × List Event :=
  match w.checkclientReportFailure [errorMessage] with
  | some err => (some err, [Event.reportFailure [errorMessage]])
  | none => (none, [Event.reportFailure [errorMessage]])

/-! ## cmd/ssl-handshake-check/checker.go -/

/-- The type `Checker`. -/
structure Checker where
  domainName : String
  portNum : String
  selfSigned : Bool
  checkTimeout : Duration
deriving DecidableEq, Repr

/-- The function `NewChecker`. -/
def NewChecker (cfg : CheckConfig) : Checker :=
  ⟨cfg.DomainName, cfg.Port, cfg.SelfSigned, cfg.CheckTimeout⟩

/-- The method `Checker.doChecks`. -/
def Checker.doChecks (w : World) (shc : Checker) : Option String × List Event :=
  match w.urlParse ("https://" ++ shc.domainName ++ ":" ++ shc.portNum) with
  | .error err => (some err, [])
  | .ok siteURL =>
    match CreatePool w with
    | (.error err, t0) => (some ("error creating cert pool for ssl checks: " ++ err), t0)
    | (.ok certPool, t0) =>
      match SSLHandshakeWithCertPool w siteURL certPool with
      | (r, t1) => (r, t0 ++ t1)

/-- The method `Checker.runChecksAsync`: the value it sends on `doneChan`. -/
def Checker.runChecksAsync (w : World) (shc : Checker) : Option String :=
  (Checker.doChecks w shc).1

/-- The case of the `select` statement in `Checker.Run` that is taken: the
first of the three channels on which a receive can proceed. -/
inductive SelectCase
  | ctxDone
  | runTimeout
  | doneChan
deriving DecidableEq, Repr

/-- The method `Checker.Run`, from the point where its `select` statement takes
the case `fired`: the error returned and the calls made by the goroutine that
executes `Run`.  The value received from `doneChan` is the one
`runChecksAsync` sends. -/
def Checker.Run (w : World) (shc : Checker) (fired : SelectCase) : Option String × List Event :=
  match fired with
  | .ctxDone => reportFailure w "Cancelling check and shutting down due to interrupt."
  | .runTimeout =>
    let sent := reportFailure w "Failed to complete SSL handshake in time. Timeout was reached."
    (sent.1, Event.cancel :: sent.2)
  | .doneChan =>
    match Checker.runChecksAsync w shc with
    | some err =>
      let sent := reportFailure w err
      (sent.1, Event.cancel :: sent.2)
    | none =>
      let sent := reportSuccess w
      (sent.1, Event.cancel :: sent.2)

/-! ## Observations on a list of calls -/

/-- The TLS configurations of the connection attempts in a list of calls. -/
def dialConfigs : List Event → List TLSConfig
  | [] => []
  | Event.dial _ _ _ config :: rest => config :: dialConfigs rest
  | _ :: rest => dialConfigs rest

/-- The reports sent to the result reporter in a list of calls. -/
def reports : List Event → List Event
  | [] => []
  | Event.reportSuccess :: rest => Event.reportSuccess :: reports rest
  | Event.reportFailure reasons :: rest => Event.reportFailure reasons :: reports rest
  | _ :: rest => reports rest

/-! ## A concrete world

A pod without mounted certificate files, whose check is not given a deadline,
asked to check `example.test:443`. -/

/-- The documented behaviour of `strconv.ParseBool`. -/
def strconvParseBool (str : String) : Except String Bool :=
  if str ∈ ["1", "t", "T", "TRUE", "true", "True"] then .ok true
  else if str ∈ ["0", "f", "F", "FALSE", "false", "False"] then .ok false
  else .error ("strconv.ParseBool: parsing \"" ++ str ++ "\": invalid syntax")

/-- A toy PEM decoder: the bytes between two markers `45` form one certificate
when they are not empty. -/
def toyDecodePEM : Bytes → List Certificate
  | 45 :: b :: 45 :: rest => [b] :: toyDecodePEM rest
  | _ => []

/-- A system trust store with two certificates. -/
def sampleSystemPool : CertPool := ⟨[[1], [2]]⟩

/-- The environment of the sample pod. -/
def sampleGetenv (name : String) : String :=
  if name = "DOMAIN_NAME" then "example.test"
  else if name = "PORT" then "443"
  else if name = "SELF_SIGNED" then "true"
  else ""

/-- The sample world. -/
def sampleWorld : World where
  stat := fun _ => false
  readFile := fun path => .error ("open " ++ path ++ ": no such file or directory")
  systemCertPool := .ok sampleSystemPool
  decodePEM := toyDecodePEM
  urlParse := fun s => .ok ⟨"https", "example.test", "443", s⟩
  dial := fun _ _ _ config =>
    if [1] ∈ config.RootCAs.certs then .ok ⟨none⟩
    else .error "tls: failed to verify certificate: x509: certificate signed by unknown authority"
  getenv := sampleGetenv
  parseBool := strconvParseBool
  now := 1793793600 * Second
  getDeadline := (zeroTime, some "unable to determine the check deadline")
  checkclientReportSuccess := none
  checkclientReportFailure := fun _ => none

/-- The sample world with a file at the self-signed path holding `content`. -/
def selfSignedWorld (content : Bytes) : World :=
  { sampleWorld with
    stat := fun path => decide (path = selfSignedCertLocation)
    readFile := fun path =>
      if path = selfSignedCertLocation then .ok content
      else .error ("open " ++ path ++ ": no such file or directory") }

/-- The sample world with a cluster CA file holding `content`. -/
def clusterCAWorld (content : Bytes) : World :=
  { sampleWorld with
    stat := fun path => decide (path = kubernetesCAFileLocation)
    readFile := fun path =>
      if path = kubernetesCAFileLocation then .ok content
      else .error ("open " ++ path ++ ": no such file or directory") }

/-! ## Lemmas on certificate pools -/

theorem mem_foldl_AddCert (l : List Certificate) (s : CertPool) (c : Certificate) :
    c ∈ (l.foldl CertPool.AddCert s).certs ↔ c ∈ s.certs ∨ c ∈ l := by
  induction l generalizing s with
  | nil => simp
  | cons x xs ih =>
    rw [List.foldl_cons, ih]
    unfold CertPool.AddCert
    by_cases hx : x ∈ s.certs
    · simp only [hx, if_true, List.mem_cons]
      constructor
      · rintro (h | h)
        · exact Or.inl h
        · exact Or.inr (Or.inr h)
      · rintro (h | h | h)
        · exact Or.inl h
        · exact Or.inl (h ▸ hx)
        · exact Or.inr h
    · simp only [hx, if_false, List.mem_append, List.mem_singleton, List.mem_cons]
      tauto

theorem AppendCertsFromPEM_nil (decode : Bytes → List Certificate) (s : CertPool)
    (b : Bytes) (h : decode b = []) :
    CertPool.AppendCertsFromPEM decode s b = (s, false) := by
  simp [CertPool.AppendCertsFromPEM, h]

/-! ## Trust pool construction -/

/-- C1, as the spec states it, fails: in the sample world no self-signed file is
present, the system trust store is obtainable and the cluster CA file cannot be
read, yet `CreatePool` returns an error instead of the system pool. -/
theorem CreatePool_unreadable_ca_counterexample :
    sampleWorld.stat selfSignedCertLocation = false ∧
    sampleWorld.systemCertPool = .ok sampleSystemPool ∧
    sampleWorld.readFile kubernetesCAFileLocation =
      .error "open /var/run/secrets/kubernetes.io/serviceaccount/ca.crt: no such file or directory" ∧
    (CreatePool sampleWorld).1 ≠ .ok sampleSystemPool ∧
    (CreatePool sampleWorld).1 = .error
      ("error fetching cert data from disk: error reading kubernetes certificate authority file: "
        ++ "open /var/run/secrets/kubernetes.io/serviceaccount/ca.crt: no such file or directory") := by
  refine ⟨rfl, rfl, rfl, ?_, rfl⟩
  intro h
  have h2 : (CreatePool sampleWorld).1 = .error
      ("error fetching cert data from disk: error reading kubernetes certificate authority file: "
        ++ "open /var/run/secrets/kubernetes.io/serviceaccount/ca.crt: no such file or directory") := rfl
  rw [h2] at h
  cases h

/-- C1, amended: when no self-signed certificate file is present, the system
trust store is obtainable and the cluster CA file cannot be read,
`AppendKubernetesCertsToPool` returns the wrapped read error and `CreatePool`
returns that error and no pool, after consulting the self-signed path, the
system store and the cluster CA file. -/
theorem CreatePool_unreadable_ca_fails (w : World) (sys : CertPool) (err : String)
    (hself : w.stat selfSignedCertLocation = false)
    (hsys : w.systemCertPool = .ok sys)
    (hread : w.readFile kubernetesCAFileLocation = .error err) :
    (AppendKubernetesCertsToPool w sys).1.1 = some
      ("error fetching cert data from disk: " ++
        ("error reading kubernetes certificate authority file: " ++ err)) ∧
    CreatePool w = (.error
      ("error fetching cert data from disk: " ++
        ("error reading kubernetes certificate authority file: " ++ err)),
      [Event.stat selfSignedCertLocation, Event.systemCertPool,
        Event.readFile kubernetesCAFileLocation]) := by
  constructor
  · simp [AppendKubernetesCertsToPool, fetchKubernetesSelfSignedCertFromDisk, hread]
  · simp [CreatePool, SelfSignedCAPresent, filePresent, hself, hsys, AppendKubernetesCertsToPool,
      fetchKubernetesSelfSignedCertFromDisk, hread]

/-- Witness for C1 amended, at the sample world. -/
theorem CreatePool_unreadable_ca_fails_witness :
    (AppendKubernetesCertsToPool sampleWorld sampleSystemPool).1.1 = some
      ("error fetching cert data from disk: error reading kubernetes certificate authority file: "
        ++ "open /var/run/secrets/kubernetes.io/serviceaccount/ca.crt: no such file or directory") ∧
    CreatePool sampleWorld = (.error
      ("error fetching cert data from disk: error reading kubernetes certificate authority file: "
        ++ "open /var/run/secrets/kubernetes.io/serviceaccount/ca.crt: no such file or directory"),
      [Event.stat selfSignedCertLocation, Event.systemCertPool,
        Event.readFile kubernetesCAFileLocation]) :=
  CreatePool_unreadable_ca_fails sampleWorld sampleSystemPool
    "open /var/run/secrets/kubernetes.io/serviceaccount/ca.crt: no such file or directory"
    rfl rfl rfl

/-- C3: when a self-signed certificate file is present, `CreatePool` returns
exactly the result of `certPoolFromFile` on that path and consults nothing but
that path: the read error when the file cannot be read, a parse error when the
content holds no certificate, and otherwise a pool holding exactly the
certificates decoded from the file; the result is the same in every world that
agrees on that file, whatever its system store and cluster CA file are. -/
theorem CreatePool_self_signed (w : World) (hself : w.stat selfSignedCertLocation = true) :
    (CreatePool w).1 = (certPoolFromFile w selfSignedCertLocation).1 ∧
    (CreatePool w).2 =
      [Event.stat selfSignedCertLocation, Event.readFile selfSignedCertLocation] ∧
    (∀ err, w.readFile selfSignedCertLocation = .error err → (CreatePool w).1 = .error err) ∧
    (∀ content, w.readFile selfSignedCertLocation = .ok content → w.decodePEM content = [] →
      (CreatePool w).1 = .error ("error parsing certs from file " ++ selfSignedCertLocation)) ∧
    (∀ content, w.readFile selfSignedCertLocation = .ok content → w.decodePEM content ≠ [] →
      ∃ pool, (CreatePool w).1 = .ok pool ∧ ∀ c, c ∈ pool.certs ↔ c ∈ w.decodePEM content) ∧
    (∀ w2 : World, w2.stat selfSignedCertLocation = true →
      w2.readFile selfSignedCertLocation = w.readFile selfSignedCertLocation →
      w2.decodePEM = w.decodePEM → CreatePool w2 = CreatePool w) := by
  have hcp : ∀ v : World, v.stat selfSignedCertLocation = true →
      CreatePool v = ((certPoolFromFile v selfSignedCertLocation).1,
        Event.stat selfSignedCertLocation :: (certPoolFromFile v selfSignedCertLocation).2) := by
    intro v hv
    simp [CreatePool, SelfSignedCAPresent, filePresent, hv]
  refine ⟨?_, ?_, ?_, ?_, ?_, ?_⟩
  · rw [hcp w hself]
  · rw [hcp w hself]
    unfold certPoolFromFile
    cases hr : w.readFile selfSignedCertLocation with
    | error e => rfl
    | ok content =>
      by_cases hd : w.decodePEM content = [] <;> simp [CertPool.AppendCertsFromPEM, hd]
  · intro err hr
    rw [hcp w hself]
    simp [certPoolFromFile, hr]
  · intro content hr hd
    rw [hcp w hself]
    simp [certPoolFromFile, hr, CertPool.AppendCertsFromPEM, hd]
  · intro content hr hd
    refine ⟨⟨(w.decodePEM content).foldl CertPool.AddCert NewCertPool |>.certs⟩, ?_, ?_⟩
    · rw [hcp w hself]
      simp [certPoolFromFile, hr, CertPool.AppendCertsFromPEM, hd]
    · intro c
      rw [mem_foldl_AddCert]
      simp [NewCertPool]
  · intro w2 h2 hr hd
    rw [hcp w hself, hcp w2 h2]
    simp [certPoolFromFile, hr, hd]

/-- Witness for C3: a self-signed file holding one certificate gives a pool of
exactly that certificate. -/
theorem CreatePool_self_signed_witness :
    (CreatePool (selfSignedWorld [45, 7, 45])).1 = .ok ⟨[[7]]⟩ ∧
    (CreatePool (selfSignedWorld [45, 7, 45])).2 =
      [Event.stat selfSignedCertLocation, Event.readFile selfSignedCertLocation] :=
  ⟨rfl, (CreatePool_self_signed (selfSignedWorld [45, 7, 45]) (by decide)).2.1⟩

/-- C4: when no self-signed file is present, the system trust store is
obtainable and the cluster CA file is readable, `AppendKubernetesCertsToPool`
returns nil for every pool, whether or not the content holds a certificate, and
`CreatePool` returns the system pool with the decoded certificates appended and
a nil error; when the content holds no certificate that pool is the system pool
unchanged. -/
theorem CreatePool_malformed_ca_lenient (w : World) (sys : CertPool) (content : Bytes)
    (hself : w.stat selfSignedCertLocation = false)
    (hsys : w.systemCertPool = .ok sys)
    (hread : w.readFile kubernetesCAFileLocation = .ok content) :
    (∀ pool, (AppendKubernetesCertsToPool w pool).1.1 = none) ∧
    (CreatePool w).1 = .ok (CertPool.AppendCertsFromPEM w.decodePEM sys content).1 ∧
    (w.decodePEM content = [] → (CreatePool w).1 = .ok sys) := by
  have h1 : (CreatePool w).1 = .ok (CertPool.AppendCertsFromPEM w.decodePEM sys content).1 := by
    simp [CreatePool, SelfSignedCAPresent, filePresent, hself, hsys, AppendKubernetesCertsToPool,
      fetchKubernetesSelfSignedCertFromDisk, hread]
  refine ⟨?_, h1, ?_⟩
  · intro pool
    simp [AppendKubernetesCertsToPool, fetchKubernetesSelfSignedCertFromDisk, hread]
  · intro hd
    rw [h1, AppendCertsFromPEM_nil _ _ _ hd]

/-- Witness for C4: a cluster CA file without any certificate leaves the system
pool as the result. -/
theorem CreatePool_malformed_ca_lenient_witness :
    toyDecodePEM [4, 7, 45] = [] ∧ (CreatePool (clusterCAWorld [4, 7, 45])).1 = .ok sampleSystemPool :=
  ⟨rfl, (CreatePool_malformed_ca_lenient (clusterCAWorld [4, 7, 45]) sampleSystemPool [4, 7, 45]
    (by decide) rfl (by simp [clusterCAWorld])).2.2 rfl⟩

/-! ## The handshake -/

/-- C5: `SSLHandshakeWithCertPool` returns nil exactly when the scheme is
"https", the TLS dial to hostname:port succeeds and the explicit handshake
returns no error; it attempts no connection exactly when the scheme is not
"https", and then returns the scheme error. -/
theorem SSLHandshakeWithCertPool_nil_iff (w : World) (siteURL : URL) (certPool : CertPool) :
    ((SSLHandshakeWithCertPool w siteURL certPool).1 = none ↔
      siteURL.Scheme = "https" ∧
      ∃ conn, w.dial "tcp" (siteURL.Hostname ++ ":" ++ siteURL.Port) (10 * Second)
          ⟨false, VersionTLS12, certPool⟩ = .ok conn ∧ conn.Handshake = none) ∧
    ((SSLHandshakeWithCertPool w siteURL certPool).2 = [] ↔ siteURL.Scheme ≠ "https") ∧
    (siteURL.Scheme ≠ "https" →
      (SSLHandshakeWithCertPool w siteURL certPool).1 = some
        ("error doing SSL handshake. The url specified " ++ siteURL.String ++
          " was not an https URL")) := by
  unfold SSLHandshakeWithCertPool
  by_cases hs : siteURL.Scheme = "https"
  · simp only [hs, ne_eq, not_true_eq_false, if_false, true_and, TimeoutSeconds]
    cases hd : w.dial "tcp" (siteURL.Hostname ++ ":" ++ siteURL.Port) (10 * Second)
        ⟨false, VersionTLS12, certPool⟩ with
    | error e => simp
    | ok conn =>
      cases hh : conn.Handshake with
      | none => simp [hh]
      | some e => simp [hh]
  · simp [hs]

/-- C6: every connection attempt of `SSLHandshakeWithCertPool`, `SSLHandshake`
and `Checker.doChecks` uses a configuration that does not skip verification and
has TLS 1.2 as its minimum version; the root CAs are the pool passed by the
caller, the system pool, and the pool built by `CreatePool` respectively.  An
https URL does lead to such an attempt. -/
theorem dial_config_verifies (w : World) (siteURL : URL) (certPool : CertPool) (shc : Checker)
    (config : TLSConfig) :
    (config ∈ dialConfigs (SSLHandshakeWithCertPool w siteURL certPool).2 →
      config.InsecureSkipVerify = false ∧ config.MinVersion = VersionTLS12 ∧
      config.RootCAs = certPool) ∧
    (siteURL.Scheme = "https" →
      dialConfigs (SSLHandshakeWithCertPool w siteURL certPool).2 =
        [⟨false, VersionTLS12, certPool⟩]) ∧
    (config ∈ dialConfigs (SSLHandshake w siteURL).2 →
      config.InsecureSkipVerify = false ∧ config.MinVersion = VersionTLS12 ∧
      w.systemCertPool = .ok config.RootCAs) ∧
    (config ∈ dialConfigs (Checker.doChecks w shc).2 →
      config.InsecureSkipVerify = false ∧ config.MinVersion = VersionTLS12 ∧
      (CreatePool w).1 = .ok config.RootCAs) := by
  have key : ∀ (u : URL) (p : CertPool),
      dialConfigs (SSLHandshakeWithCertPool w u p).2 =
        if u.Scheme = "https" then [⟨false, VersionTLS12, p⟩] else [] := by
    intro u p
    unfold SSLHandshakeWithCertPool
    by_cases hs : u.Scheme = "https"
    · simp only [hs, ne_eq, not_true_eq_false, if_false, if_true]
      cases w.dial "tcp" (u.Hostname ++ ":" ++ u.Port) (TimeoutSeconds * Second)
          ⟨false, VersionTLS12, p⟩ with
      | error e => rfl
      | ok conn => cases conn with | mk hk => cases hk <;> rfl
    · simp [hs, dialConfigs]
  have mem : ∀ (u : URL) (p : CertPool),
      config ∈ dialConfigs (SSLHandshakeWithCertPool w u p).2 →
        config = ⟨false, VersionTLS12, p⟩ := by
    intro u p h
    rw [key] at h
    by_cases hs : u.Scheme = "https"
    · simpa [hs] using h
    · simp [hs] at h
  have pool : ∀ t : List Event, (∀ e ∈ t, ∀ n a d c, e ≠ Event.dial n a d c) →
      ∀ t2, dialConfigs (t ++ t2) = dialConfigs t2 := by
    intro t
    induction t with
    | nil => intro _ t2; rfl
    | cons e es ih =>
      intro h t2
      have hes := ih (fun x hx => h x (List.mem_cons_of_mem _ hx)) t2
      cases e with
      | dial n a d c => exact absurd rfl (h _ (List.mem_cons_self _ _) n a d c)
      | _ => simpa [dialConfigs] using hes
  have cpt : ∀ e ∈ (CreatePool w).2, ∀ n a d c, e ≠ Event.dial n a d c := by
    intro e he n a d c
    unfold CreatePool SelfSignedCAPresent filePresent at he
    by_cases hst : w.stat selfSignedCertLocation = true
    · simp only [hst, if_true] at he
      unfold certPoolFromFile at he
      cases hr : w.readFile selfSignedCertLocation with
      | error x => simp [hr] at he; rcases he with h | h <;> simp [h]
      | ok x =>
        simp only [hr] at he
        split at he <;> simp at he <;> rcases he with h | h <;> simp [h]
    · simp only [hst] at he
      cases hsy : w.systemCertPool with
      | error x => simp [hsy] at he; rcases he with h | h <;> simp [h]
      | ok x =>
        simp only [hsy, AppendKubernetesCertsToPool, fetchKubernetesSelfSignedCertFromDisk] at he
        cases hr : w.readFile kubernetesCAFileLocation with
        | error y => simp [hr] at he; rcases he with h | h | h <;> simp [h]
        | ok y => simp [hr] at he; rcases he with h | h | h <;> simp [h]
  refine ⟨?_, ?_, ?_, ?_⟩
  · intro h
    rw [mem siteURL certPool h]
    exact ⟨rfl, rfl, rfl⟩
  · intro hs
    rw [key]
    simp [hs]
  · intro h
    unfold SSLHandshake at h
    cases hsy : w.systemCertPool with
    | error x => simp [hsy, dialConfigs] at h
    | ok p =>
      simp only [hsy, dialConfigs] at h
      rw [mem siteURL p h]
      exact ⟨rfl, rfl, rfl⟩
  · intro h
    unfold Checker.doChecks at h
    cases hu : w.urlParse ("https://" ++ shc.domainName ++ ":" ++ shc.portNum) with
    | error x => simp [hu, dialConfigs] at h
    | ok u =>
      simp only [hu] at h
      have hpt := pool (CreatePool w).2 cpt
      cases hc : (CreatePool w) with
      | mk r t =>
        rw [hc] at h hpt
        cases r with
        | error x =>
          simp only at h
          have := hpt []
          simp only [List.append_nil] at this
          rw [this] at h
          simp [dialConfigs] at h
        | ok p =>
          simp only at h
          rw [hpt] at h
          rw [mem u p h]
          exact ⟨rfl, rfl, rfl⟩

/-! ## Configuration -/

theorem length_eq_zero_iff_empty (s : String) : s.length = 0 ↔ s = "" := by
  constructor
  · intro h
    have hd : s.data = [] := List.length_eq_zero.mp h
    exact String.ext hd
  · intro h
    rw [h]
    rfl

/-- The timeout `parseConfig` puts into a configuration is the deadline minus
the current time minus five seconds, whether or not the provider reported an
error. -/
theorem parseConfig_CheckTimeout (w : World) (cfg : CheckConfig)
    (h : parseConfig w = .ok cfg) :
    cfg.CheckTimeout = Time.Sub w.getDeadline.1 (Time.Add w.now (Second * 5)) := by
  unfold parseConfig at h
  simp only at h
  split_ifs at h
  cases hb : w.parseBool (w.getenv "SELF_SIGNED") with
  | error e => simp [hb] at h
  | ok b =>
    simp only [hb] at h
    cases h
    rfl

/-- C2, at the failing input: in the sample world the deadline provider returns
an error (and the zero time) and the three environment variables are valid;
`parseConfig` returns a configuration whose timeout is the smallest
`Duration`, about minus 292 years, and not the default of 20 seconds. -/
theorem parseConfig_deadline_error_not_default :
    sampleWorld.getDeadline = (zeroTime, some "unable to determine the check deadline") ∧
    parseConfig sampleWorld = .ok ⟨"example.test", "443", true, minDuration⟩ ∧
    minDuration ≠ defaultCheckTimeout := by
  refine ⟨rfl, rfl, ?_⟩
  decide

/-- C9: `parseConfig` returns an error exactly when DOMAIN_NAME is empty, or
PORT is empty, or SELF_SIGNED is empty or rejected by `strconv.ParseBool`;
otherwise it returns a configuration with the domain name and port of the
environment, unchanged, and the parsed flag. -/
theorem parseConfig_error_iff (w : World) :
    ((∃ err, parseConfig w = .error err) ↔
      (w.getenv "DOMAIN_NAME" = "" ∨ w.getenv "PORT" = "" ∨ w.getenv "SELF_SIGNED" = "" ∨
        ∃ err, w.parseBool (w.getenv "SELF_SIGNED") = .error err)) ∧
    (∀ flag, w.getenv "DOMAIN_NAME" ≠ "" → w.getenv "PORT" ≠ "" →
      w.parseBool (w.getenv "SELF_SIGNED") = .ok flag → w.getenv "SELF_SIGNED" ≠ "" →
      ∃ cfg, parseConfig w = .ok cfg ∧ cfg.DomainName = w.getenv "DOMAIN_NAME" ∧
        cfg.Port = w.getenv "PORT" ∧ cfg.SelfSigned = flag) := by
  unfold parseConfig
  simp only [length_eq_zero_iff_empty]
  by_cases hd : w.getenv "DOMAIN_NAME" = ""
  · simp [hd]
  by_cases hp : w.getenv "PORT" = ""
  · simp [hd, hp]
  by_cases hs : w.getenv "SELF_SIGNED" = ""
  · simp [hd, hp, hs]
  cases hb : w.parseBool (w.getenv "SELF_SIGNED") with
  | error e => simp [hd, hp, hs, hb]
  | ok b => simp [hd, hp, hs, hb]

/-! ## The check run -/

/-- C7: whichever case the `select` of `Checker.Run` takes, exactly one report
is sent: `reportSuccess` exactly when the handshake result is received and is
nil, `reportFailure` with the error text when it is received and is not nil,
`reportFailure` with the timeout reason when the run timer case is taken, and
`reportFailure` with the interrupt reason when the context case is taken. -/
theorem Run_reports_once (w : World) (shc : Checker) (fired : SelectCase) :
    (reports (Checker.Run w shc fired).2).length = 1 ∧
    (reports (Checker.Run w shc fired).2 = [Event.reportSuccess] ↔
      fired = SelectCase.doneChan ∧ (Checker.doChecks w shc).1 = none) ∧
    (∀ err, fired = SelectCase.doneChan → (Checker.doChecks w shc).1 = some err →
      reports (Checker.Run w shc fired).2 = [Event.reportFailure [err]]) ∧
    (fired = SelectCase.runTimeout →
      reports (Checker.Run w shc fired).2 =
        [Event.reportFailure ["Failed to complete SSL handshake in time. Timeout was reached."]]) ∧
    (fired = SelectCase.ctxDone →
      reports (Checker.Run w shc fired).2 =
        [Event.reportFailure ["Cancelling check and shutting down due to interrupt."]]) := by
  have hf : ∀ m, (reportFailure w m).2 = [Event.reportFailure [m]] := by
    intro m
    unfold reportFailure
    cases w.checkclientReportFailure [m] <;> rfl
  have hs : (reportSuccess w).2 = [Event.reportSuccess] := by
    unfold reportSuccess
    cases w.checkclientReportSuccess <;> rfl
  cases fired with
  | ctxDone => simp [Checker.Run, hf, reports]
  | runTimeout => simp [Checker.Run, hf, reports]
  | doneChan =>
    cases hd : (Checker.doChecks w shc).1 with
    | none => simp [Checker.Run, Checker.runChecksAsync, hd, hs, reports]
    | some e => simp [Checker.Run, Checker.runChecksAsync, hd, hf, reports]

/-- C10: two Checkers that differ only in the `selfSigned` field get the same
result and make the same calls in `doChecks`, against the same world; when no
self-signed certificate file exists, a Checker with `selfSigned` set dials with
the system pool to which the cluster CA file was appended. -/
theorem doChecks_ignores_selfSigned (w : World) (c1 c2 : Checker)
    (hdom : c1.domainName = c2.domainName) (hport : c1.portNum = c2.portNum)
    (_htime : c1.checkTimeout = c2.checkTimeout) :
    Checker.doChecks w c1 = Checker.doChecks w c2 ∧
    (∀ sys content siteURL, w.stat selfSignedCertLocation = false →
      w.systemCertPool = .ok sys → w.readFile kubernetesCAFileLocation = .ok content →
      w.urlParse ("https://" ++ c1.domainName ++ ":" ++ c1.portNum) = .ok siteURL →
      siteURL.Scheme = "https" → c1.selfSigned = true →
      dialConfigs (Checker.doChecks w c1).2 =
        [⟨false, VersionTLS12, (CertPool.AppendCertsFromPEM w.decodePEM sys content).1⟩]) := by
  constructor
  · unfold Checker.doChecks
    rw [hdom, hport]
  · intro sys content siteURL hself hsys hread hurl hscheme _
    have hcp : CreatePool w = (.ok (CertPool.AppendCertsFromPEM w.decodePEM sys content).1,
        [Event.stat selfSignedCertLocation, Event.systemCertPool,
          Event.readFile kubernetesCAFileLocation]) := by
      simp [CreatePool, SelfSignedCAPresent, filePresent, hself, hsys,
        AppendKubernetesCertsToPool, fetchKubernetesSelfSignedCertFromDisk, hread]
    unfold Checker.doChecks
    simp only [hurl, hcp]
    unfold SSLHandshakeWithCertPool
    simp only [hscheme, ne_eq, not_true_eq_false, if_false]
    cases w.dial "tcp" (siteURL.Hostname ++ ":" ++ siteURL.Port) (TimeoutSeconds * Second)
        ⟨false, VersionTLS12, (CertPool.AppendCertsFromPEM w.decodePEM sys content).1⟩ with
    | error e => rfl
    | ok conn => cases conn with | mk hk => cases hk <;> rfl

/-- Witness for C10: with SELF_SIGNED set either way and only a cluster CA file
mounted, the check dials with the system pool plus the cluster CA. -/
theorem doChecks_ignores_selfSigned_witness :
    Checker.doChecks (clusterCAWorld [45, 7, 45]) ⟨"example.test", "443", true, 0⟩ =
      Checker.doChecks (clusterCAWorld [45, 7, 45]) ⟨"example.test", "443", false, 0⟩ ∧
    dialConfigs (Checker.doChecks (clusterCAWorld [45, 7, 45])
      ⟨"example.test", "443", true, 0⟩).2 = [⟨false, VersionTLS12, ⟨[[1], [2], [7]]⟩⟩] :=
  ⟨(doChecks_ignores_selfSigned (clusterCAWorld [45, 7, 45]) ⟨"example.test", "443", true, 0⟩
      ⟨"example.test", "443", false, 0⟩ rfl rfl rfl).1,
    (doChecks_ignores_selfSigned (clusterCAWorld [45, 7, 45]) ⟨"example.test", "443", true, 0⟩
      ⟨"example.test", "443", false, 0⟩ rfl rfl rfl).2 sampleSystemPool [45, 7, 45]
      ⟨"https", "example.test", "443", "https://example.test:443"⟩
      (by decide) rfl (by simp [clusterCAWorld]) rfl rfl rfl⟩

/-- C8, at the failing input: in the sample world the deadline provider gives
no usable deadline, so `parseConfig` returns a timeout that is not positive and
the deadline of the context `main` derives from it has passed before `Run`
starts.  When the `select` of `Run` takes the context case, `Run` cancels
nothing and sends one report, whose reason is the interrupt reason and not the
timeout reason; the timeout reason is sent only when the timer case is taken. -/
theorem Run_expired_context_reports_interrupt :
    parseConfig sampleWorld = .ok ⟨"example.test", "443", true, minDuration⟩ ∧
    (NewChecker ⟨"example.test", "443", true, minDuration⟩).checkTimeout ≤ 0 ∧
    (Checker.Run sampleWorld (NewChecker ⟨"example.test", "443", true, minDuration⟩)
      SelectCase.ctxDone).2 =
      [Event.reportFailure ["Cancelling check and shutting down due to interrupt."]] ∧
    reports (Checker.Run sampleWorld (NewChecker ⟨"example.test", "443", true, minDuration⟩)
      SelectCase.ctxDone).2 ≠
      [Event.reportFailure ["Failed to complete SSL handshake in time. Timeout was reached."]] ∧
    reports (Checker.Run sampleWorld (NewChecker ⟨"example.test", "443", true, minDuration⟩)
      SelectCase.runTimeout).2 =
      [Event.reportFailure ["Failed to complete SSL handshake in time. Timeout was reached."]] := by
  refine ⟨rfl, by decide, rfl, ?_, rfl⟩
  have h : reports (Checker.Run sampleWorld
      (NewChecker ⟨"example.test", "443", true, minDuration⟩) SelectCase.ctxDone).2 =
      [Event.reportFailure ["Cancelling check and shutting down due to interrupt."]] := rfl
  rw [h]
  decide

end SSLHandshakeCheck
